import Mathlib

/-!
Shallow embedding of the core of `supply_chain_intelligence.py`
(TF-IDF document search engine, linear-trend demand forecaster, and the
`forecast_demand` entry point of the main system), together with theorems
checking the natural-language specification's claims against it.

Numbers: the Python code computes in IEEE-754 doubles; the embedding uses
exact real arithmetic (`ℝ`), the standard idealisation.  `round(x, 2)` is
modelled as exact decimal rounding half-to-even.  Raised Python exceptions
are modelled as `Except.error`; explicitly returned error dictionaries
(such as `{'error': 'SKU ... not found'}`) are modelled as ordinary return
values, so the crash / explicit-error distinction of the source is visible
in the types.
-/

namespace DocumentSearchEngine

/-- Embeds `DocumentSearchEngine._tokenize` (source lines 96-100):
`re.findall(r'\b\w+\b', text.lower())` extracts maximal runs of word
characters (letters, digits, underscore) from the lower-cased text, and
tokens of length `≤ 2` are discarded.  `wordRunsAux` performs the greedy
left-to-right scan, accumulating the current run in `cur` (reversed). -/
def isWordChar (c : Char) : Bool := c.isAlphanum || c = '_'

/-- Greedy scanner splitting a character list into maximal runs of word
characters; `cur` holds the characters of the run in progress, reversed. -/
def wordRunsAux (cs : List Char) (cur : List Char) : List (List Char) :=
  match cs with
  | [] => if cur.isEmpty then [] else [cur.reverse]
  | c :: rest =>
    if isWordChar c then wordRunsAux rest (c :: cur)
    else if cur.isEmpty then wordRunsAux rest []
    else cur.reverse :: wordRunsAux rest []

/-- Tokenizer of the search engine: lower-case, split into maximal
word-character runs, keep tokens with more than 2 characters.
(`String.toLower` lower-cases ASCII letters; the Unicode case table of
Python's `str.lower` is outside the model, all inputs of interest are
ASCII.) -/
def tokenize (text : String) : List String :=
  ((wordRunsAux (text.toList.map Char.toLower) []).map (fun r => String.mk r)).filter
    (fun w => 2 < w.length)

/-- Embeds `self.doc_terms` built by `_build_index` (lines 102-114): the
per-document term lists, order-preserving, duplicates kept. -/
def doc_terms (documents : List String) : List (List String) :=
  documents.map tokenize

/-- Embeds `self.doc_freq` built by `_build_index`: for each document the
counter is incremented once per distinct term of that document, hence
`doc_freq term` is the number of documents whose token list contains
`term`.  `Counter.get(term, 0)` defaulting to `0` for unseen terms is the
value of `countP` itself. -/
def doc_freq (documents : List String) (term : String) : ℕ :=
  documents.countP (fun d => (tokenize d).contains term)

/-- Lexicographic code-point comparison of character lists: Python's `<`
on strings. -/
def charListLt : List Char → List Char → Bool
  | _, [] => false
  | [], _ :: _ => true
  | c :: cs, d :: ds =>
    if c.toNat < d.toNat then true
    else if d.toNat < c.toNat then false
    else charListLt cs ds

/-- Python's `<=` on strings, as a boolean on code points. -/
def strLe (a b : String) : Bool := !(charListLt b.toList a.toList)

/-- Embeds `self.vocab` after `_build_index`:
`sorted(list(set of all terms))`, i.e. the sorted deduplicated union of
all documents' terms (sorted in Python's code-point order). -/
def vocab (documents : List String) : List String :=
  ((documents.map tokenize).flatten.dedup).insertionSort (fun a b => strLe a b = true)

/-- Embeds `DocumentSearchEngine._tfidf_score` (lines 116-124):
`tf = doc_terms[doc_idx].count(term) / max(len(doc_terms[doc_idx]), 1)`,
`idf = np.log(len(documents) / (doc_freq.get(term, 0) + 1))`.
(For an empty corpus `np.log(0.0)` is `-inf`; `Real.log 0 = 0` differs,
but `search` never evaluates `_tfidf_score` on an empty corpus since it
scores documents `0 ≤ doc_idx < len(documents)`.) -/
noncomputable def tfidf_score (documents : List String) (term : String)
    (doc_idx : ℕ) : ℝ :=
  let terms := (doc_terms documents).getD doc_idx []
  let tf : ℝ := (terms.count term : ℝ) / (max terms.length 1 : ℝ)
  let idf : ℝ := Real.log ((documents.length : ℝ) / ((doc_freq documents term : ℝ) + 1))
  tf * idf

/-- Embeds the score loop of `search` (lines 140-147): for every document
index, the sum of `_tfidf_score(term, doc_idx)` over the query's token
list (duplicates retained) restricted to tokens present in the
vocabulary. -/
noncomputable def scores (documents : List String) (query : String) : List ℝ :=
  (List.range documents.length).map (fun doc_idx =>
    (((tokenize query).filter (fun term => (vocab documents).contains term)).map
      (fun term => tfidf_score documents term doc_idx)).sum)

/-- Embeds `np.argsort(scores)` with the default sort kind: a permutation
of the indices `0, …, len(scores)-1` ordered by ascending score.  numpy's
introsort runs a plain insertion sort on partitions of at most 16
elements, so for arrays of length `≤ 16` the whole sort is one stable
insertion sort and ties keep ascending index order; for longer arrays
the quicksort partitioning permutes equal-scored indices in an
implementation-defined way, modelled here by an arbitrary (classically
chosen) score-sorted permutation of the index range, about which nothing
beyond the sort contract is assumed. -/
noncomputable def argsort (s : List ℝ) : List ℕ :=
  if s.length ≤ 16 then
    @List.insertionSort ℕ (fun i j => s.getD i 0 ≤ s.getD j 0)
      (fun _ _ => Classical.propDecidable _) (List.range s.length)
  else
    Classical.choose
      ((⟨@List.insertionSort ℕ (fun i j => s.getD i 0 ≤ s.getD j 0)
            (fun _ _ => Classical.propDecidable _) (List.range s.length),
          List.perm_insertionSort _ _, by
          letI : IsTotal ℕ (fun i j : ℕ => s.getD i 0 ≤ s.getD j 0) :=
            ⟨fun _ _ => le_total _ _⟩
          letI : IsTrans ℕ (fun i j : ℕ => s.getD i 0 ≤ s.getD j 0) :=
            ⟨fun _ _ _ => le_trans⟩
          exact List.sorted_insertionSort _ _⟩ :
        ∃ p : List ℕ, List.Perm p (List.range s.length) ∧
          List.Pairwise (fun i j => s.getD i 0 ≤ s.getD j 0) p))

/-- Embeds the Python slice `arr[-top_k:]` applied by `search` to the
argsort result: for a negative start index `-top_k` the effective start is
`max(len + (-top_k), 0)`; for a non-negative one (i.e. `top_k ≤ 0`) it is
`min(-top_k, len)`.  In particular `arr[-0:]` is the whole array. -/
def sliceLast {α : Type} (l : List α) (top_k : ℤ) : List α :=
  let start : ℤ := -top_k
  if start < 0 then l.drop (max ((l.length : ℤ) + start) 0).toNat
  else l.drop (min start (l.length : ℤ)).toNat

/-- One entry of the result list of `search` (lines 152-159). -/
structure SearchResult where
  rank : ℕ
  document : String
  score : ℝ
  index : ℕ

/-- Embeds `DocumentSearchEngine.search` (lines 126-161):
score every document, take `np.argsort(scores)[-top_k:][::-1]`, and build
the ranked result records.  `documents[idx]` is total in Python for the
indices produced (all are `< len(documents)`); `getD` with default values
models the same access. -/
noncomputable def search (documents : List String) (query : String)
    (top_k : ℤ) : List SearchResult :=
  let s := scores documents query
  let top_indices := (sliceLast (argsort s) top_k).reverse
  top_indices.enum.map (fun p =>
    { rank := p.1 + 1
      document := documents.getD p.2 ""
      score := s.getD p.2 0
      index := p.2 })

/-- Modelled from the spec (§4.3), for comparison with the code: the
per-document aggregate as the sum over DISTINCT query terms present in
the vocabulary of the tf-idf value. -/
noncomputable def spec_aggregate (documents : List String) (query : String)
    (doc_idx : ℕ) : ℝ :=
  (((tokenize query).dedup.filter (fun term => (vocab documents).contains term)).map
    (fun term => tfidf_score documents term doc_idx)).sum

end DocumentSearchEngine

namespace DemandForecaster

/-- Embeds `np.mean(values)`: the sum of the entries divided by their
number.  (`np.mean` of an empty array is `nan` with a suppressed warning;
the embedding's junk value `0/0 = 0` is likewise never used, because every
code path with an empty series errors at `np.polyfit` before the mean is
consumed.) -/
noncomputable def npMean (ys : List ℝ) : ℝ :=
  (∑ i in Finset.range ys.length, ys.getD i 0) / (ys.length : ℝ)

/-- Embeds the population variance underlying `np.std(values)`: the mean
of the squared deviations from the mean. -/
noncomputable def npVar (ys : List ℝ) : ℝ :=
  (∑ i in Finset.range ys.length, (ys.getD i 0 - npMean ys) ^ 2) / (ys.length : ℝ)

/-- Embeds `np.std(values)`: the square root of the population variance. -/
noncomputable def npStd (ys : List ℝ) : ℝ := Real.sqrt (npVar ys)

/-- Embeds `np.polyfit(np.arange(n), ys, 1)` as called at source line 263.
Tracing numpy's `polyfit`:
* `n = 0`: `polyfit` raises `TypeError("expected non-empty vector for x")`
  (explicit guard in `numpy/lib/polynomial.py`).
* `n = 1`: `x = [0]`, so the Vandermonde matrix is `[[0., 1.]]`; `polyfit`
  divides each column by its Euclidean norm and the first column's norm is
  `0`, producing `0/0 = nan`; `np.linalg.lstsq` on a matrix containing
  `nan` raises `LinAlgError("SVD did not converge in Linear Least
  Squares")`.
* `n ≥ 2`: the design matrix has full column rank and the least-squares
  solution is the ordinary least-squares line through the points
  `(i, ys[i])`, `i = 0, …, n-1`, given by the closed formulas below. -/
noncomputable def npPolyfitDeg1 (ys : List ℝ) : Except String (ℝ × ℝ) :=
  if ys.length = 0 then
    .error "TypeError: expected non-empty vector for x"
  else if ys.length = 1 then
    .error "LinAlgError: SVD did not converge in Linear Least Squares"
  else
    let n : ℝ := ys.length
    let sum_x : ℝ := ∑ i in Finset.range ys.length, (i : ℝ)
    let sum_x2 : ℝ := ∑ i in Finset.range ys.length, (i : ℝ) ^ 2
    let sum_y : ℝ := ∑ i in Finset.range ys.length, ys.getD i 0
    let sum_xy : ℝ := ∑ i in Finset.range ys.length, (i : ℝ) * ys.getD i 0
    let slope := (n * sum_xy - sum_x * sum_y) / (n * sum_x2 - sum_x ^ 2)
    let intercept := (sum_y - slope * sum_x) / n
    .ok (slope, intercept)

/-- Embeds Python's `round` to the nearest integer, ties to even, applied
to the exact real value (binary floating-point representation artifacts
are outside the model). -/
noncomputable def roundHalfEven (x : ℝ) : ℤ :=
  if x - ⌊x⌋ < 1 / 2 then ⌊x⌋
  else if 1 / 2 < x - ⌊x⌋ then ⌊x⌋ + 1
  else if Even ⌊x⌋ then ⌊x⌋ else ⌊x⌋ + 1

/-- Embeds Python's `round(x, 2)`: round `100 * x` half-to-even, divide by
`100`. -/
noncomputable def round2 (x : ℝ) : ℝ := ((roundHalfEven (100 * x) : ℤ) : ℝ) / 100

/-- One entry of the `predictions` list built by `forecast` (source lines
276-288).  The `date` field (string formatting of the timestamp) is
presentation only and not part of the numeric model. -/
structure Prediction where
  predicted_demand : ℝ
  lower_bound : ℝ
  upper_bound : ℝ

/-- The record returned by `DemandForecaster.forecast` (lines 310-326),
with the `metrics` and `recommendations` sub-dictionaries flattened into
fields.  The `forecast_date` field (the wall-clock date) and the
`rationale` string (formatted from `trend` and `growth_rate`) are
presentation only and omitted from the numeric model. -/
structure Forecast where
  sku_id : String
  predictions : List Prediction
  historical_avg : ℝ
  forecast_avg : ℝ
  growth_rate : ℝ
  trend : String
  action : String
  target_stock : ℝ
  reorder_point : ℝ

open Classical in
/-- Embeds `DemandForecaster.forecast` (source lines 242-326) on the `y`
column of the historical frame.  An `Except.error` value models a raised
Python exception (here: the exceptions escaping `np.polyfit`, see
`npPolyfitDeg1`); an `Except.ok` value is the returned dictionary.
`demand_values[-1]` / `demand_values[0]` are modelled with `getLast?` /
`head?` with default `0`; both are only reached with a nonempty series
since `np.polyfit` raises first on an empty one.  (`np.mean` of the empty
`predictions` list when `periods = 0` is `nan` in numpy and the junk value
`0` here; no claim touches `periods = 0` metrics.) -/
noncomputable def forecast (historical : List ℝ) (sku_id : String)
    (periods : ℕ) : Except String Forecast :=
  let avg_demand := npMean historical
  let std_demand := npStd historical
  match npPolyfitDeg1 historical with
  | .error e => .error e
  | .ok (trend_coef, _) =>
    let trend : String :=
      if trend_coef > 0.1 then "increasing"
      else if trend_coef < -0.1 then "decreasing"
      else "stable"
    let predictions : List Prediction := (List.range periods).map (fun (i : ℕ) =>
      let forecast_value := max 0 (avg_demand + trend_coef * ((historical.length : ℝ) + (i : ℝ)))
      { predicted_demand := round2 forecast_value
        lower_bound := round2 (max 0 (forecast_value - 1.96 * std_demand))
        upper_bound := round2 (forecast_value + 1.96 * std_demand) })
    let growth_rate : ℝ :=
      if 1 < historical.length then
        ((historical.getLast?.getD 0 - historical.head?.getD 0) /
          (historical.head?.getD 0 + 1e-10)) * 100
      else 0
    let action : String :=
      if growth_rate > 15 then "INCREASE"
      else if growth_rate < -15 then "DECREASE"
      else "MAINTAIN"
    let forecast_avg := npMean (predictions.map (fun p => p.predicted_demand))
    let target_stock := forecast_avg * 14
    let reorder_point := forecast_avg * 7
    .ok
      { sku_id := sku_id
        predictions := predictions
        historical_avg := round2 avg_demand
        forecast_avg := round2 forecast_avg
        growth_rate := round2 growth_rate
        trend := trend
        action := action
        target_stock := round2 target_stock
        reorder_point := round2 reorder_point }

/-- Sum of squared residuals of the line `x ↦ a * x + b` against the
points `(i, ys[i])`, `i = 0, …, n-1`: the objective that ordinary least
squares minimises. -/
noncomputable def sse (ys : List ℝ) (a b : ℝ) : ℝ :=
  ∑ i in Finset.range ys.length, (ys.getD i 0 - (a * (i : ℝ) + b)) ^ 2

end DemandForecaster

namespace SupplyChainIntelligence

/-- One row of the loaded product frame, restricted to the columns the
`forecast_demand` path reads: the `SKU` identifier and the
`Number of products sold` value. -/
structure Product where
  sku : String
  number_sold : ℝ

/-- Embeds `SupplyChainIntelligence._generate_historical_data` (source
lines 584-595) on its `y` column: 90 synthetic daily values
`max(0, base_demand * (1 + i/days * 0.2) + noise(i))`.  The call
`np.random.normal(0, base_demand * 0.1)` is modelled by the explicit noise
stream `noise : ℕ → ℝ` (the draw used on day `i`). -/
noncomputable def generate_historical_data (base_demand : ℝ) (days : ℕ)
    (noise : ℕ → ℝ) : List ℝ :=
  (List.range days).map (fun (i : ℕ) =>
    max 0 (base_demand * (1 + (i : ℝ) / (days : ℝ) * 0.2) + noise i))

/-- Result of `forecast_demand`: either the explicitly returned error
dictionary `{'error': 'SKU <id> not found'}` or a forecast record. -/
inductive FDResult where
  | errorRecord (msg : String)
  | forecastRecord (f : DemandForecaster.Forecast)

/-- Embeds `SupplyChainIntelligence.forecast_demand` (source lines
550-582): filter the frame on `SKU == sku_id`; if the selection is empty
return the error dictionary, otherwise take the first matching row,
generate 90 days of synthetic history from `Number of products sold / 30`
and forecast `days` periods ahead.  The outer `Except` layer models raised
exceptions propagating out of `self.forecaster.forecast`. -/
noncomputable def forecast_demand (df : List Product) (sku_id : String)
    (noise : ℕ → ℝ) (days : ℕ) : Except String FDResult :=
  let product := df.filter (fun p => p.sku = sku_id)
  match product with
  | [] => .ok (.errorRecord ("SKU " ++ sku_id ++ " not found"))
  | p :: _ =>
    let base_demand := p.number_sold / 30
    let hist_data := generate_historical_data base_demand 90 noise
    match DemandForecaster.forecast hist_data sku_id days with
    | .error e => .error e
    | .ok f => .ok (.forecastRecord f)

end SupplyChainIntelligence

namespace DocumentSearchEngine

lemma length_scores (documents : List String) (query : String) :
    (scores documents query).length = documents.length := by
  simp [scores]

lemma enum_snd_map {α β : Type} (l : List α) (g : α → β) :
    l.enum.map (fun p => g p.2) = l.map g := by
  have h : l.enum.map (fun p => g p.2) = (l.enum.map Prod.snd).map g := by
    rw [List.map_map]; rfl
  rw [h, List.enum_map_snd]

lemma argsort_spec (s : List ℝ) :
    List.Perm (argsort s) (List.range s.length) ∧
      List.Pairwise (fun i j => s.getD i 0 ≤ s.getD j 0) (argsort s) := by
  rw [argsort]
  split
  · constructor
    · exact List.perm_insertionSort _ _
    · letI : IsTotal ℕ (fun i j : ℕ => s.getD i 0 ≤ s.getD j 0) :=
        ⟨fun _ _ => le_total _ _⟩
      letI : IsTrans ℕ (fun i j : ℕ => s.getD i 0 ≤ s.getD j 0) :=
        ⟨fun _ _ _ => le_trans⟩
      exact List.sorted_insertionSort _ _
  · exact @Classical.choose_spec (List ℕ)
      (fun p => List.Perm p (List.range s.length) ∧
        List.Pairwise (fun i j => s.getD i 0 ≤ s.getD j 0) p) _

lemma argsort_perm (s : List ℝ) : List.Perm (argsort s) (List.range s.length) :=
  (argsort_spec s).1

lemma length_argsort (s : List ℝ) : (argsort s).length = s.length := by
  simpa using (argsort_perm s).length_eq

lemma sorted_argsort (s : List ℝ) :
    (argsort s).Sorted (fun i j => s.getD i 0 ≤ s.getD j 0) :=
  (argsort_spec s).2

lemma search_map_score (documents : List String) (query : String) (top_k : ℤ) :
    (search documents query top_k).map SearchResult.score =
      ((sliceLast (argsort (scores documents query)) top_k).reverse).map
        (fun i => (scores documents query).getD i 0) := by
  simp only [search, List.map_map]
  exact enum_snd_map _ (fun i => (scores documents query).getD i 0)

lemma search_map_index (documents : List String) (query : String) (top_k : ℤ) :
    (search documents query top_k).map SearchResult.index =
      (sliceLast (argsort (scores documents query)) top_k).reverse := by
  simp only [search, List.map_map]
  exact List.enum_map_snd _

lemma length_search (documents : List String) (query : String) (top_k : ℤ) :
    (search documents query top_k).length =
      (sliceLast (argsort (scores documents query)) top_k).length := by
  simp [search]

end DocumentSearchEngine

/-- C5: for every query string and every `k`, `search` on an engine built
from an empty document collection returns an empty result list (and, being
total, does not raise). -/
theorem C5_empty_corpus_search (query : String) (top_k : ℤ) :
    DocumentSearchEngine.search [] query top_k = [] := by
  have hs : DocumentSearchEngine.scores [] query = [] := rfl
  have ha : DocumentSearchEngine.argsort [] = [] := rfl
  simp [DocumentSearchEngine.search, hs, ha, DocumentSearchEngine.sliceLast]

/-- C7: after index construction, every term of the vocabulary has a
document frequency with `0 < df(term) ≤ number_of_documents`.  The
embedding is purely functional — `search` and `_tfidf_score` take the
corpus as a read-only argument — so the invariant holds for the engine's
whole lifetime. -/
theorem C7_doc_freq_invariant (documents : List String) (term : String)
    (ht : term ∈ DocumentSearchEngine.vocab documents) :
    0 < DocumentSearchEngine.doc_freq documents term ∧
      DocumentSearchEngine.doc_freq documents term ≤ documents.length := by
  constructor
  · rw [DocumentSearchEngine.vocab] at ht
    rw [List.mem_insertionSort, List.mem_dedup, List.mem_flatten] at ht
    obtain ⟨terms, hterms, htm⟩ := ht
    rw [List.mem_map] at hterms
    obtain ⟨d, hd, rfl⟩ := hterms
    rw [DocumentSearchEngine.doc_freq, List.countP_pos_iff]
    exact ⟨d, hd, List.elem_eq_true_of_mem htm⟩
  · exact List.countP_le_length _

/-- C7 witness. -/
theorem C7_doc_freq_invariant_witness :
    0 < DocumentSearchEngine.doc_freq ["cat dog", "cat fish"] "cat" ∧
      DocumentSearchEngine.doc_freq ["cat dog", "cat fish"] "cat" ≤
        (["cat dog", "cat fish"] : List String).length :=
  C7_doc_freq_invariant ["cat dog", "cat fish"] "cat" (by decide)

namespace DocumentSearchEngine

lemma sliceLast_eq_drop {α : Type} (l : List α) (top_k : ℤ) :
    ∃ m, sliceLast l top_k = l.drop m := by
  unfold sliceLast
  dsimp only
  split
  · exact ⟨_, rfl⟩
  · exact ⟨_, rfl⟩

lemma sorted_sliceLast (s : List ℝ) (top_k : ℤ) :
    (sliceLast (argsort s) top_k).Pairwise (fun i j => s.getD i 0 ≤ s.getD j 0) := by
  obtain ⟨m, hm⟩ := sliceLast_eq_drop (argsort s) top_k
  rw [hm]
  exact List.Pairwise.sublist (List.drop_sublist m _) (sorted_argsort s)

end DocumentSearchEngine

/-- C2 counterexample: with `k = 0` and a one-document corpus, `search`
returns 1 result while `min(k, number_of_documents) = 0` — the Python
slice `scores[-0:]` selects the whole array, so the claimed bound fails
for the integer `k = 0`. -/
theorem C2_counterexample :
    ¬ (((DocumentSearchEngine.search ["cat"] "cat" 0).length : ℤ) ≤
        min (0 : ℤ) ((["cat"] : List String).length : ℤ)) := by
  have h : (DocumentSearchEngine.search ["cat"] "cat" 0).length = 1 := rfl
  rw [h]
  decide

/-- C2 amended: for every document collection, query string, and integer
`k ≥ 1`, `search(query, k)` returns at most `min(k, number_of_documents)`
results, ordered by non-increasing relevance score. -/
theorem C2_amended_search_topk (documents : List String) (query : String)
    (top_k : ℤ) (hk : 1 ≤ top_k) :
    (DocumentSearchEngine.search documents query top_k).length ≤
      min top_k.toNat documents.length ∧
    ((DocumentSearchEngine.search documents query top_k).map
        DocumentSearchEngine.SearchResult.score).Sorted (fun a b => b ≤ a) := by
  constructor
  · rw [DocumentSearchEngine.length_search]
    have h1 : (DocumentSearchEngine.argsort
        (DocumentSearchEngine.scores documents query)).length = documents.length := by
      rw [DocumentSearchEngine.length_argsort, DocumentSearchEngine.length_scores]
    have hneg : -top_k < 0 := by omega
    simp only [DocumentSearchEngine.sliceLast]
    rw [if_pos hneg, List.length_drop, h1]
    omega
  · rw [DocumentSearchEngine.search_map_score, List.Sorted, List.pairwise_map,
      List.pairwise_reverse]
    exact DocumentSearchEngine.sorted_sliceLast _ top_k

/-- C2 witness. -/
theorem C2_amended_search_topk_witness :
    (DocumentSearchEngine.search ["cat"] "cat" 1).length ≤
      min (1 : ℤ).toNat (["cat"] : List String).length ∧
    ((DocumentSearchEngine.search ["cat"] "cat" 1).map
        DocumentSearchEngine.SearchResult.score).Sorted (fun a b => b ≤ a) :=
  C2_amended_search_topk ["cat"] "cat" 1 (by decide)

namespace DocumentSearchEngine

lemma getD_eq_zero (s : List ℝ) (h : ∀ x ∈ s, x = 0) (i : ℕ) : s.getD i 0 = 0 := by
  induction s generalizing i with
  | nil => simp
  | cons a t ih =>
    cases i with
    | zero => simpa using h a (by simp)
    | succ j =>
      simp only [List.getD_cons_succ]
      exact ih (fun x hx => h x (by simp [hx])) j

lemma orderedInsert_of_forall {α : Type} (r : α → α → Prop) [DecidableRel r]
    (h : ∀ a b, r a b) (a : α) (l : List α) : l.orderedInsert r a = a :: l := by
  cases l with
  | nil => rfl
  | cons b t => simp [List.orderedInsert, if_pos (h a b)]

lemma insertionSort_of_forall {α : Type} (r : α → α → Prop) [DecidableRel r]
    (h : ∀ a b, r a b) (l : List α) : List.insertionSort r l = l := by
  induction l with
  | nil => rfl
  | cons a t ih => rw [List.insertionSort, ih, orderedInsert_of_forall r h]

lemma argsort_of_zero_scores (s : List ℝ) (h16 : s.length ≤ 16)
    (h : ∀ x ∈ s, x = 0) : argsort s = List.range s.length := by
  rw [argsort, if_pos h16]
  exact insertionSort_of_forall _
    (fun a b => by rw [getD_eq_zero s h a, getD_eq_zero s h b]) _

lemma scores_eq_zero (documents : List String) (query : String)
    (h : ∀ t ∈ tokenize query, t ∉ vocab documents) :
    ∀ x ∈ scores documents query, x = 0 := by
  intro x hx
  obtain ⟨i, _, rfl⟩ := List.mem_map.mp hx
  have hfil : (tokenize query).filter
      (fun term => (vocab documents).contains term) = [] := by
    rw [List.filter_eq_nil_iff]
    intro t ht
    simpa using fun hc => h t ht (List.mem_of_elem_eq_true hc)
  rw [hfil]
  simp

end DocumentSearchEngine

/-- C6: for a query none of whose tokens is in the vocabulary, every
document's score is exactly 0, and for every `k` search still returns
results rather than rejecting or raising: every returned result carries
score 0, for `k ≥ 1` exactly `min(k, N)` results come back, and — on
corpora of at most 16 documents, where numpy's argsort is a stable
insertion sort and the reference tie-break is defined — the results are
in the tie-break order (descending original document index, the reversed
slice of `0, …, N-1`). -/
theorem C6_zero_match_query (documents : List String) (query : String)
    (h : ∀ t ∈ DocumentSearchEngine.tokenize query,
      t ∉ DocumentSearchEngine.vocab documents) :
    (∀ x ∈ DocumentSearchEngine.scores documents query, x = 0) ∧
    (∀ top_k : ℤ,
      ∀ r ∈ DocumentSearchEngine.search documents query top_k, r.score = 0) ∧
    (∀ top_k : ℤ, 1 ≤ top_k →
      (DocumentSearchEngine.search documents query top_k).length =
        min top_k.toNat documents.length) ∧
    (documents.length ≤ 16 → ∀ top_k : ℤ,
      (DocumentSearchEngine.search documents query top_k).map
          DocumentSearchEngine.SearchResult.index =
        (DocumentSearchEngine.sliceLast (List.range documents.length) top_k).reverse) := by
  have hz := DocumentSearchEngine.scores_eq_zero documents query h
  refine ⟨hz, fun top_k => ?_, fun top_k hk => ?_, fun h16 top_k => ?_⟩
  · intro r hr
    have hmem : r.score ∈ (DocumentSearchEngine.search documents query top_k).map
        DocumentSearchEngine.SearchResult.score :=
      List.mem_map_of_mem _ hr
    rw [DocumentSearchEngine.search_map_score] at hmem
    obtain ⟨i, _, hi⟩ := List.mem_map.mp hmem
    rw [← hi, DocumentSearchEngine.getD_eq_zero _ hz]
  · rw [DocumentSearchEngine.length_search]
    have h1 : (DocumentSearchEngine.argsort
        (DocumentSearchEngine.scores documents query)).length = documents.length := by
      rw [DocumentSearchEngine.length_argsort, DocumentSearchEngine.length_scores]
    have hneg : -top_k < 0 := by omega
    simp only [DocumentSearchEngine.sliceLast]
    rw [if_pos hneg, List.length_drop, h1]
    omega
  · rw [DocumentSearchEngine.search_map_index,
      DocumentSearchEngine.argsort_of_zero_scores _
        (by rw [DocumentSearchEngine.length_scores]; exact h16) hz,
      DocumentSearchEngine.length_scores]

/-- C6 witness. -/
theorem C6_zero_match_query_witness :
    (∀ x ∈ DocumentSearchEngine.scores ["cat dog"] "xyzzy", x = 0) ∧
    (∀ top_k : ℤ,
      ∀ r ∈ DocumentSearchEngine.search ["cat dog"] "xyzzy" top_k, r.score = 0) ∧
    (∀ top_k : ℤ, 1 ≤ top_k →
      (DocumentSearchEngine.search ["cat dog"] "xyzzy" top_k).length =
        min top_k.toNat (["cat dog"] : List String).length) ∧
    ((["cat dog"] : List String).length ≤ 16 → ∀ top_k : ℤ,
      (DocumentSearchEngine.search ["cat dog"] "xyzzy" top_k).map
          DocumentSearchEngine.SearchResult.index =
        (DocumentSearchEngine.sliceLast
          (List.range (["cat dog"] : List String).length) top_k).reverse) :=
  C6_zero_match_query ["cat dog"] "xyzzy" (by decide)

namespace DocumentSearchEngine

lemma filter_contains_map_sum (l : List String) (vs : List String) (f : String → ℝ) :
    ((l.filter (fun t => vs.contains t)).map f).sum =
      (l.map (fun t => if t ∈ vs then f t else 0)).sum := by
  induction l with
  | nil => rfl
  | cons a t ih =>
    by_cases hm : a ∈ vs
    · rw [List.filter_cons, if_pos (by simpa using List.elem_eq_true_of_mem hm),
        List.map_cons, List.sum_cons, List.map_cons, List.sum_cons, if_pos hm, ih]
    · rw [List.filter_cons, if_neg (by simpa using fun hc => hm (List.mem_of_elem_eq_true hc)),
        List.map_cons, List.sum_cons, if_neg hm, ih, zero_add]

lemma doc_freq_eq_zero_of_not_mem_vocab (documents : List String) (term : String)
    (h : term ∉ vocab documents) : doc_freq documents term = 0 := by
  rw [doc_freq, List.countP_eq_zero]
  intro d hd
  simp only [Bool.not_eq_true]
  rw [← Bool.not_eq_true]
  intro hc
  apply h
  rw [vocab, List.mem_insertionSort, List.mem_dedup, List.mem_flatten]
  exact ⟨tokenize d, List.mem_map_of_mem tokenize hd, List.mem_of_elem_eq_true hc⟩

end DocumentSearchEngine

/-- C3 counterexample: the code sums the tf-idf value once per query TOKEN
OCCURRENCE, not once per distinct query term.  On the corpus
`["abc def"]` and the query `"abc abc"` (the same term twice) the code's
aggregate is `2 · tf·idf ≠ tf·idf`, the spec's distinct-term sum. -/
theorem C3_counterexample :
    (DocumentSearchEngine.scores ["abc def"] "abc abc").getD 0 0 ≠
      DocumentSearchEngine.spec_aggregate ["abc def"] "abc abc" 0 := by
  have hfil : (DocumentSearchEngine.tokenize "abc abc").filter
      (fun t => (DocumentSearchEngine.vocab ["abc def"]).contains t) =
        ["abc", "abc"] := by decide
  have hfil2 : (DocumentSearchEngine.tokenize "abc abc").dedup.filter
      (fun t => (DocumentSearchEngine.vocab ["abc def"]).contains t) = ["abc"] := by decide
  have hr : List.range (["abc def"] : List String).length = [0] := by decide
  have ht : DocumentSearchEngine.tfidf_score ["abc def"] "abc" 0 =
      (1 / 2 : ℝ) * Real.log (1 / 2) := by
    have h1 : (DocumentSearchEngine.doc_terms ["abc def"]).getD 0 [] =
        ["abc", "def"] := by decide
    have h2 : DocumentSearchEngine.doc_freq ["abc def"] "abc" = 1 := by decide
    have hc : List.count "abc" ["abc", "def"] = 1 := by decide
    simp only [DocumentSearchEngine.tfidf_score, h1, h2, hc]
    norm_num
  have hlog : Real.log (1 / 2 : ℝ) < 0 := Real.log_neg (by norm_num) (by norm_num)
  simp only [DocumentSearchEngine.scores, DocumentSearchEngine.spec_aggregate,
    hfil, hfil2, hr, List.map_cons, List.map_nil, List.sum_cons, List.sum_nil,
    List.getD_cons_zero, ht]
  intro hcontra
  nlinarith [hlog]

/-- C3 amended: the per-term score equals
`(count of term in the document's term list / max(length of the term list, 1))
· ln(N / (df(term) + 1))` with `df` defaulting to `0` for terms absent from
the corpus, and the per-document aggregate equals the sum over the query's
TOKEN OCCURRENCES (duplicates counted with multiplicity) of that tf·idf
value, tokens absent from the Vocabulary contributing zero. -/
theorem C3_amended_tfidf_aggregate (documents : List String) (query : String)
    (doc_idx : ℕ) (term : String) (hidx : doc_idx < documents.length)
    (hterm : term ∉ DocumentSearchEngine.vocab documents) :
    (DocumentSearchEngine.scores documents query).get? doc_idx =
      some (((DocumentSearchEngine.tokenize query).map
        (fun t => if t ∈ DocumentSearchEngine.vocab documents then
          DocumentSearchEngine.tfidf_score documents t doc_idx else 0)).sum) ∧
    (∀ t, DocumentSearchEngine.tfidf_score documents t doc_idx =
      ((((DocumentSearchEngine.doc_terms documents).getD doc_idx []).count t : ℝ) /
        (max ((DocumentSearchEngine.doc_terms documents).getD doc_idx []).length 1 : ℝ)) *
      Real.log ((documents.length : ℝ) /
        ((DocumentSearchEngine.doc_freq documents t : ℝ) + 1))) ∧
    DocumentSearchEngine.doc_freq documents term = 0 := by
  refine ⟨?_, fun t => rfl, DocumentSearchEngine.doc_freq_eq_zero_of_not_mem_vocab
    documents term hterm⟩
  rw [DocumentSearchEngine.scores, List.get?_eq_getElem?, List.getElem?_map,
    List.getElem?_range hidx]
  rw [Option.map_some', DocumentSearchEngine.filter_contains_map_sum]

/-- C3 witness. -/
theorem C3_amended_tfidf_aggregate_witness :
    (DocumentSearchEngine.scores ["abc def"] "abc").get? 0 =
      some (((DocumentSearchEngine.tokenize "abc").map
        (fun t => if t ∈ DocumentSearchEngine.vocab ["abc def"] then
          DocumentSearchEngine.tfidf_score ["abc def"] t 0 else 0)).sum) ∧
    (∀ t, DocumentSearchEngine.tfidf_score ["abc def"] t 0 =
      ((((DocumentSearchEngine.doc_terms ["abc def"]).getD 0 []).count t : ℝ) /
        (max ((DocumentSearchEngine.doc_terms ["abc def"]).getD 0 []).length 1 : ℝ)) *
      Real.log (((["abc def"] : List String).length : ℝ) /
        ((DocumentSearchEngine.doc_freq ["abc def"] t : ℝ) + 1))) ∧
    DocumentSearchEngine.doc_freq ["abc def"] "zzz" = 0 :=
  C3_amended_tfidf_aggregate ["abc def"] "abc" 0 "zzz" (by decide) (by decide)

/-- C10: relevance scores can be strictly negative.  On the one-document
corpus `["cat"]` and the query `"cat"`, the term occurs in the single
document, so `idf = ln(1 / (1 + 1)) < 0` and the returned result carries a
strictly negative relevance score. -/
theorem C10_negative_score_result :
    ∃ r ∈ DocumentSearchEngine.search ["cat"] "cat" 3, r.score < 0 := by
  have hfil : (DocumentSearchEngine.tokenize "cat").filter
      (fun t => (DocumentSearchEngine.vocab ["cat"]).contains t) = ["cat"] := by
    decide
  have hr : List.range ((["cat"] : List String)).length = [0] := by decide
  have h1 : (DocumentSearchEngine.doc_terms ["cat"]).getD 0 [] = ["cat"] := by decide
  have h2 : DocumentSearchEngine.doc_freq ["cat"] "cat" = 1 := by decide
  have hc : List.count "cat" ["cat"] = 1 := by decide
  have hscore : (DocumentSearchEngine.scores ["cat"] "cat").getD 0 0 < 0 := by
    simp only [DocumentSearchEngine.scores, hfil, hr, List.map_cons, List.map_nil,
      List.sum_cons, List.sum_nil, List.getD_cons_zero,
      DocumentSearchEngine.tfidf_score, h1, h2, hc, add_zero]
    norm_num
    exact Real.log_neg (by norm_num) (by norm_num)
  refine ⟨⟨1, "cat", (DocumentSearchEngine.scores ["cat"] "cat").getD 0 0, 0⟩, ?_, hscore⟩
  have hsearch : DocumentSearchEngine.search ["cat"] "cat" 3 =
      [{ rank := 1, document := "cat",
         score := (DocumentSearchEngine.scores ["cat"] "cat").getD 0 0,
         index := 0 }] := rfl
  rw [hsearch]
  exact List.mem_singleton_self _

namespace DemandForecaster

lemma sum_range_cast (n : ℕ) :
    (∑ i in Finset.range n, (i : ℝ)) = n * (n - 1) / 2 := by
  induction n with
  | zero => norm_num
  | succ m ih =>
    rw [Finset.sum_range_succ, ih]
    push_cast
    ring

lemma sum_range_sq_cast (n : ℕ) :
    (∑ i in Finset.range n, (i : ℝ) ^ 2) = n * (n - 1) * (2 * n - 1) / 6 := by
  induction n with
  | zero => norm_num
  | succ m ih =>
    rw [Finset.sum_range_succ, ih]
    push_cast
    ring

lemma ols_optimal (ys : List ℝ) (s c : ℝ)
    (hp : npPolyfitDeg1 ys = Except.ok (s, c)) (a b : ℝ) :
    sse ys s c ≤ sse ys a b := by
  by_cases h0 : ys.length = 0
  · rw [npPolyfitDeg1, if_pos h0] at hp
    exact absurd hp (by simp)
  by_cases h1 : ys.length = 1
  · rw [npPolyfitDeg1, if_neg h0, if_pos h1] at hp
    exact absurd hp (by simp)
  have hn2 : 2 ≤ ys.length := by omega
  rw [npPolyfitDeg1, if_neg h0, if_neg h1] at hp
  simp only [Except.ok.injEq, Prod.mk.injEq] at hp
  obtain ⟨hs, hc⟩ := hp
  set n := ys.length with hn
  set Y : ℕ → ℝ := fun i => ys.getD i 0 with hY
  set Sx : ℝ := ∑ i in Finset.range n, (i : ℝ) with hSx
  set Sx2 : ℝ := ∑ i in Finset.range n, (i : ℝ) ^ 2 with hSx2
  set Sy : ℝ := ∑ i in Finset.range n, Y i with hSy
  set Sxy : ℝ := ∑ i in Finset.range n, (i : ℝ) * Y i with hSxy
  have hnR : (2 : ℝ) ≤ (n : ℝ) := by exact_mod_cast hn2
  have hn0 : (n : ℝ) ≠ 0 := Nat.cast_ne_zero.mpr (by omega)
  have hD : 0 < (n : ℝ) * Sx2 - Sx ^ 2 := by
    rw [hSx, hSx2, sum_range_cast, sum_range_sq_cast]
    have hkey : (n : ℝ) * ((n : ℝ) * ((n : ℝ) - 1) * (2 * (n : ℝ) - 1) / 6) -
        ((n : ℝ) * ((n : ℝ) - 1) / 2) ^ 2 =
        (n : ℝ) ^ 2 * ((n : ℝ) - 1) * ((n : ℝ) + 1) / 12 := by ring
    rw [hkey]
    have h1 : 0 < (n : ℝ) - 1 := by linarith
    have h2 : 0 < (n : ℝ) + 1 := by linarith
    have h3 : 0 < (n : ℝ) ^ 2 := by nlinarith
    exact div_pos (mul_pos (mul_pos h3 h1) h2) (by norm_num)
  have hD0 : (n : ℝ) * Sx2 - Sx ^ 2 ≠ 0 := ne_of_gt hD
  set r : ℕ → ℝ := fun i => Y i - (s * (i : ℝ) + c) with hr
  have hsum_r : (∑ i in Finset.range n, r i) = 0 := by
    have hexp : (∑ i in Finset.range n, r i) = Sy - (s * Sx + n * c) := by
      rw [hr]
      rw [Finset.sum_sub_distrib, Finset.sum_add_distrib, ← Finset.mul_sum,
        Finset.sum_const, Finset.card_range, nsmul_eq_mul]
    rw [hexp, ← hs, ← hc]
    field_simp
    all_goals ring
  have hsum_ir : (∑ i in Finset.range n, (i : ℝ) * r i) = 0 := by
    have hexp : (∑ i in Finset.range n, (i : ℝ) * r i) =
        Sxy - (s * Sx2 + c * Sx) := by
      rw [hr]
      have : ∀ i ∈ Finset.range n, (i : ℝ) * (Y i - (s * (i : ℝ) + c)) =
          (i : ℝ) * Y i - (s * (i : ℝ) ^ 2 + c * (i : ℝ)) := by
        intro i _
        ring
      rw [Finset.sum_congr rfl this, Finset.sum_sub_distrib, Finset.sum_add_distrib,
        ← Finset.mul_sum, ← Finset.mul_sum]
    rw [hexp, ← hs, ← hc]
    field_simp
    all_goals ring
  have hdecomp : ∀ i ∈ Finset.range n, (Y i - (a * (i : ℝ) + b)) ^ 2 =
      r i ^ 2 + ((2 * (s - a)) * ((i : ℝ) * r i) + (2 * (c - b)) * r i) +
        ((s - a) * (i : ℝ) + (c - b)) ^ 2 := by
    intro i _
    rw [hr]
    ring
  have hab : sse ys a b =
      (∑ i in Finset.range n, r i ^ 2) +
      ((2 * (s - a)) * (∑ i in Finset.range n, (i : ℝ) * r i) +
        (2 * (c - b)) * (∑ i in Finset.range n, r i)) +
      (∑ i in Finset.range n, ((s - a) * (i : ℝ) + (c - b)) ^ 2) := by
    have h1 : sse ys a b = ∑ i in Finset.range n, (Y i - (a * (i : ℝ) + b)) ^ 2 := rfl
    rw [h1, Finset.sum_congr rfl hdecomp]
    simp only [Finset.sum_add_distrib]
    rw [← Finset.mul_sum, ← Finset.mul_sum]
  have hsc : sse ys s c = ∑ i in Finset.range n, r i ^ 2 := rfl
  have hnonneg : 0 ≤ ∑ i in Finset.range n, ((s - a) * (i : ℝ) + (c - b)) ^ 2 :=
    Finset.sum_nonneg (fun i _ => sq_nonneg _)
  rw [hab, hsc, hsum_r, hsum_ir]
  simp only [mul_zero, add_zero, zero_add]
  linarith [hnonneg]

end DemandForecaster

namespace DemandForecaster

lemma npPolyfitDeg1_ok_of_two_le (ys : List ℝ) (h : 2 ≤ ys.length) :
    ∃ sc : ℝ × ℝ, npPolyfitDeg1 ys = Except.ok sc := by
  rw [npPolyfitDeg1, if_neg (by omega), if_neg (by omega)]
  exact ⟨_, rfl⟩

lemma forecast_of_polyfit_error (ys : List ℝ) (sku : String) (periods : ℕ)
    (e : String) (hp : npPolyfitDeg1 ys = Except.error e) :
    forecast ys sku periods = Except.error e := by
  simp only [forecast, hp]

lemma forecast_of_polyfit_ok (ys : List ℝ) (sku : String) (periods : ℕ)
    (s c : ℝ) (hp : npPolyfitDeg1 ys = Except.ok (s, c)) :
    ∃ f, forecast ys sku periods = Except.ok f := by
  cases hf : forecast ys sku periods with
  | error e => exact absurd hf (by simp [forecast, hp])
  | ok f => exact ⟨f, rfl⟩

lemma forecast_predictions_eq (ys : List ℝ) (sku : String) (periods : ℕ)
    (s c : ℝ) (hp : npPolyfitDeg1 ys = Except.ok (s, c)) (f : Forecast)
    (hf : forecast ys sku periods = Except.ok f) :
    f.predictions = (List.range periods).map (fun i =>
      { predicted_demand := round2 (max 0 (npMean ys + s * ((ys.length : ℝ) + (i : ℝ))))
        lower_bound := round2 (max 0 (max 0 (npMean ys + s * ((ys.length : ℝ) + (i : ℝ))) -
          1.96 * npStd ys))
        upper_bound := round2 (max 0 (npMean ys + s * ((ys.length : ℝ) + (i : ℝ))) +
          1.96 * npStd ys) }) := by
  simp only [forecast, hp, Except.ok.injEq] at hf
  rw [← hf]

end DemandForecaster

namespace DemandForecaster

lemma roundHalfEven_eq_floor_case (x : ℝ) (z : ℤ) (h1 : (z : ℝ) ≤ x)
    (h2 : x < (z : ℝ) + 1 / 2) : roundHalfEven x = z := by
  have hfl : ⌊x⌋ = z := by
    rw [Int.floor_eq_iff]
    constructor
    · exact h1
    · linarith
  rw [roundHalfEven, hfl, if_pos]
  linarith

lemma round2_eq_of_frac_lt (x : ℝ) (z : ℤ) (h1 : (z : ℝ) ≤ 100 * x)
    (h2 : 100 * x < (z : ℝ) + 1 / 2) : round2 x = (z : ℝ) / 100 := by
  rw [round2, roundHalfEven_eq_floor_case _ z h1 h2]

end DemandForecaster

/-- C1 counterexample: on a historical series with 0 observations the
forecaster propagates the `TypeError` raised by `np.polyfit`, and on a
series with exactly 1 observation it propagates `np.linalg`'s
`LinAlgError`; neither failure is reported as an explicit error result. -/
theorem C1_counterexample :
    DemandForecaster.forecast [] "SKU0" 30 =
      Except.error "TypeError: expected non-empty vector for x" ∧
    DemandForecaster.forecast [(5 : ℝ)] "SKU0" 30 =
      Except.error "LinAlgError: SVD did not converge in Linear Least Squares" :=
  ⟨rfl, rfl⟩

/-- C1 amended: for every historical series with 0 or 1 observations,
`forecast` raises (the exception escaping `np.polyfit`) instead of
returning an explicit error result; for every series with at least 2
observations it returns a forecast without raising and without dividing
by zero. -/
theorem C1_amended_degenerate_series (ys : List ℝ) (sku : String) (periods : ℕ) :
    (ys.length ≤ 1 →
      ∃ e, DemandForecaster.forecast ys sku periods = Except.error e) ∧
    (2 ≤ ys.length →
      ∃ f, DemandForecaster.forecast ys sku periods = Except.ok f) := by
  constructor
  · intro hle
    by_cases h0 : ys.length = 0
    · refine ⟨"TypeError: expected non-empty vector for x",
        DemandForecaster.forecast_of_polyfit_error ys sku periods _ ?_⟩
      rw [DemandForecaster.npPolyfitDeg1, if_pos h0]
    · have h1 : ys.length = 1 := by omega
      refine ⟨"LinAlgError: SVD did not converge in Linear Least Squares",
        DemandForecaster.forecast_of_polyfit_error ys sku periods _ ?_⟩
      rw [DemandForecaster.npPolyfitDeg1, if_neg h0, if_pos h1]
  · intro h2
    obtain ⟨⟨s, c⟩, hp⟩ := DemandForecaster.npPolyfitDeg1_ok_of_two_le ys h2
    exact DemandForecaster.forecast_of_polyfit_ok ys sku periods s c hp

/-- C1 witness. -/
theorem C1_amended_degenerate_series_witness :
    (∃ e, DemandForecaster.forecast [] "SKU0" 30 = Except.error e) ∧
    (∃ f, DemandForecaster.forecast [(1 : ℝ), 2] "SKU0" 30 = Except.ok f) :=
  ⟨(C1_amended_degenerate_series [] "SKU0" 30).1 (by decide),
   (C1_amended_degenerate_series [(1 : ℝ), 2] "SKU0" 30).2 (by decide)⟩

/-- C8 counterexample: on a series with exactly 1 observation the trend
fit does not return slope 0 — `np.polyfit` divides the Vandermonde column
`[0]` by its zero norm, producing `nan`, and `lstsq` raises
`LinAlgError`. -/
theorem C8_counterexample :
    DemandForecaster.npPolyfitDeg1 [(5 : ℝ)] =
      Except.error "LinAlgError: SVD did not converge in Linear Least Squares" := rfl

/-- C8 amended: whenever the fit succeeds it is the ordinary
least-squares line (it minimises the sum of squared residuals against the
implicit independent variable `0, 1, …, n-1`); on `[1,2,3,4,5]` it
returns slope 1 and intercept 1 exactly; on a series with exactly 1
observation `np.polyfit` raises instead of returning slope 0. -/
theorem C8_amended_trend_fit :
    DemandForecaster.npPolyfitDeg1 [(1 : ℝ), 2, 3, 4, 5] = Except.ok (1, 1) ∧
    (∃ e, DemandForecaster.npPolyfitDeg1 [(5 : ℝ)] = Except.error e) ∧
    ∀ (ys : List ℝ) (s c : ℝ), DemandForecaster.npPolyfitDeg1 ys = Except.ok (s, c) →
      ∀ a b : ℝ, DemandForecaster.sse ys s c ≤ DemandForecaster.sse ys a b := by
  refine ⟨?_, ⟨"LinAlgError: SVD did not converge in Linear Least Squares", rfl⟩,
    fun ys s c hp a b => DemandForecaster.ols_optimal ys s c hp a b⟩
  rw [DemandForecaster.npPolyfitDeg1, if_neg (by decide), if_neg (by decide)]
  norm_num [Finset.sum_range_succ, List.getD_cons_zero, List.getD_cons_succ]

/-- C8 witness. -/
theorem C8_amended_trend_fit_witness :
    DemandForecaster.sse [(1 : ℝ), 2, 3, 4, 5] 1 1 ≤
      DemandForecaster.sse [(1 : ℝ), 2, 3, 4, 5] 0 3 :=
  C8_amended_trend_fit.2.2 [(1 : ℝ), 2, 3, 4, 5] 1 1 C8_amended_trend_fit.1 0 3

/-- C4 amended: for every historical series, with `mean` its mean, `std`
its population standard deviation and `s` the fitted slope (when the fit
succeeds), the forecast's point estimate at step `i` is
`round₂(max(0, mean + s·(n+i)))`, its lower bound is
`round₂(max(0, max(0, mean + s·(n+i)) - 1.96·std))` and its upper bound is
`round₂(max(0, mean + s·(n+i)) + 1.96·std)` — the `±1.96·std` band does
not widen with `i`, but every stored value passes through Python's
`round(·, 2)`. -/
theorem C4_amended_prediction_formulas (ys : List ℝ) (sku : String)
    (periods i : ℕ) (s c : ℝ)
    (hfit : DemandForecaster.npPolyfitDeg1 ys = Except.ok (s, c))
    (hi : i < periods) :
    ∃ f, DemandForecaster.forecast ys sku periods = Except.ok f ∧
      f.predictions.get? i = some
        { predicted_demand := DemandForecaster.round2
            (max 0 (DemandForecaster.npMean ys + s * ((ys.length : ℝ) + (i : ℝ))))
          lower_bound := DemandForecaster.round2
            (max 0 (max 0 (DemandForecaster.npMean ys + s * ((ys.length : ℝ) + (i : ℝ))) -
              1.96 * DemandForecaster.npStd ys))
          upper_bound := DemandForecaster.round2
            (max 0 (DemandForecaster.npMean ys + s * ((ys.length : ℝ) + (i : ℝ))) +
              1.96 * DemandForecaster.npStd ys) } := by
  obtain ⟨f, hf⟩ := DemandForecaster.forecast_of_polyfit_ok ys sku periods s c hfit
  refine ⟨f, hf, ?_⟩
  rw [DemandForecaster.forecast_predictions_eq ys sku periods s c hfit f hf,
    List.get?_eq_getElem?, List.getElem?_map, List.getElem?_range hi, Option.map_some']

/-- C4 witness. -/
theorem C4_amended_prediction_formulas_witness :
    ∃ f, DemandForecaster.forecast [(10 : ℝ), 10] "S" 1 = Except.ok f ∧
      f.predictions.get? 0 = some
        { predicted_demand := DemandForecaster.round2
            (max 0 (DemandForecaster.npMean [(10 : ℝ), 10] +
              0 * ((([(10 : ℝ), 10] : List ℝ).length : ℝ) + ((0 : ℕ) : ℝ))))
          lower_bound := DemandForecaster.round2
            (max 0 (max 0 (DemandForecaster.npMean [(10 : ℝ), 10] +
              0 * ((([(10 : ℝ), 10] : List ℝ).length : ℝ) + ((0 : ℕ) : ℝ))) -
              1.96 * DemandForecaster.npStd [(10 : ℝ), 10]))
          upper_bound := DemandForecaster.round2
            (max 0 (DemandForecaster.npMean [(10 : ℝ), 10] +
              0 * ((([(10 : ℝ), 10] : List ℝ).length : ℝ) + ((0 : ℕ) : ℝ))) +
              1.96 * DemandForecaster.npStd [(10 : ℝ), 10]) } :=
  C4_amended_prediction_formulas [(10 : ℝ), 10] "S" 1 0 0 10
    (by rw [DemandForecaster.npPolyfitDeg1, if_neg (by decide), if_neg (by decide)]
        norm_num [Finset.sum_range_succ, List.getD_cons_zero, List.getD_cons_succ])
    (by decide)

/-- C4 counterexample: on the series `[1, 1, 2]` (mean `4/3`, fitted
slope `1/2`) the stored point estimate for step 0 is
`round(17/6, 2) = 2.83`, which differs from the claimed exact value
`max(0, mean + slope·(n+0)) = 17/6`. -/
theorem C4_counterexample :
    ∃ f, DemandForecaster.forecast [(1 : ℝ), 1, 2] "SKU" 1 = Except.ok f ∧
      DemandForecaster.npPolyfitDeg1 [(1 : ℝ), 1, 2] = Except.ok (1 / 2, 5 / 6) ∧
      f.predictions.map DemandForecaster.Prediction.predicted_demand = [283 / 100] ∧
      (283 / 100 : ℝ) ≠
        max 0 (DemandForecaster.npMean [(1 : ℝ), 1, 2] +
          (1 / 2) * ((([(1 : ℝ), 1, 2] : List ℝ).length : ℝ) + ((0 : ℕ) : ℝ))) := by
  have hfit : DemandForecaster.npPolyfitDeg1 [(1 : ℝ), 1, 2] =
      Except.ok (1 / 2, 5 / 6) := by
    rw [DemandForecaster.npPolyfitDeg1, if_neg (by decide), if_neg (by decide)]
    norm_num [Finset.sum_range_succ, List.getD_cons_zero, List.getD_cons_succ]
  have hmean : DemandForecaster.npMean [(1 : ℝ), 1, 2] = 4 / 3 := by
    rw [DemandForecaster.npMean]
    norm_num [Finset.sum_range_succ, List.getD_cons_zero, List.getD_cons_succ]
  obtain ⟨f, hf⟩ := DemandForecaster.forecast_of_polyfit_ok [(1 : ℝ), 1, 2] "SKU" 1
    (1 / 2) (5 / 6) hfit
  refine ⟨f, hf, hfit, ?_, ?_⟩
  · rw [DemandForecaster.forecast_predictions_eq [(1 : ℝ), 1, 2] "SKU" 1 (1 / 2) (5 / 6)
      hfit f hf]
    rw [show List.range 1 = [0] from rfl]
    simp only [List.map_cons, List.map_nil]
    rw [hmean]
    have hmax : max (0 : ℝ) (4 / 3 + 1 / 2 * ((([(1 : ℝ), 1, 2] : List ℝ).length : ℝ) +
        ((0 : ℕ) : ℝ))) = 17 / 6 := by
      norm_num
    rw [hmax]
    rw [DemandForecaster.round2_eq_of_frac_lt (17 / 6) 283 (by norm_num) (by norm_num)]
    norm_num
  · rw [hmean]
    norm_num

/-- C9: for every loaded product frame and SKU identifier matching no
row, `forecast_demand` returns the explicit error record
`{'error': 'SKU <id> not found'}` naming the identifier, and does not
raise. -/
theorem C9_unknown_sku_error (df : List SupplyChainIntelligence.Product)
    (sku_id : String) (noise : ℕ → ℝ) (days : ℕ)
    (h : ∀ p ∈ df, p.sku ≠ sku_id) :
    SupplyChainIntelligence.forecast_demand df sku_id noise days =
      Except.ok (.errorRecord ("SKU " ++ sku_id ++ " not found")) := by
  have hfil : df.filter (fun p => p.sku = sku_id) = [] := by
    rw [List.filter_eq_nil_iff]
    intro p hp
    simpa using h p hp
  simp only [SupplyChainIntelligence.forecast_demand, hfil]

/-- C9 witness. -/
theorem C9_unknown_sku_error_witness :
    SupplyChainIntelligence.forecast_demand [⟨"SKU0", 300⟩] "SKU9" (fun _ => 0) 30 =
      Except.ok (.errorRecord ("SKU " ++ "SKU9" ++ " not found")) :=
  C9_unknown_sku_error [⟨"SKU0", 300⟩] "SKU9" (fun _ => 0) 30 (by decide)
